import Mathlib

/-!
# Attachment subsystem of the kivik document-database client

Shallow embedding of the attachment data model, its JSON marshal/unmarshal
logic and the driver-facing attachments iterator, together with proofs of
the behavioural properties stated for them.

Bytes are modelled as `Nat` values below 256; a content stream
(`io.ReadCloser` in the source) is modelled by the outcome of reading it to
exhaustion: either its bytes or a read error.  JSON documents are modelled
structurally, as the trees the marshaller emits and the unmarshaller
consumes.
-/

/-- A one-shot readable content stream: reading it to exhaustion either
yields its bytes or fails with an error message (an `errorReader`). -/
inductive ContentStream where
  | bytes (b : List Nat)
  | failing (msg : String)
deriving DecidableEq

/-- Reading a stream to exhaustion (`ioutil.ReadAll`). -/
def ContentStream.readAll : ContentStream → Except String (List Nat)
  | .bytes b => .ok b
  | .failing msg => .error msg

/-- Closing a byte-backed content stream (an `ioutil.NopCloser`): never
reports an error. -/
def ContentStream.close : ContentStream → Option String
  | _ => none

/-- Fully reading an optional content stream; a `nil` stream cannot be read. -/
def readContent : Option ContentStream → Except String (List Nat)
  | none => .error "nil content"
  | some s => s.readAll

/-- The `Attachment` entity: metadata plus an owned content stream.  Field
names follow the source struct. -/
structure Attachment where
  Filename : String := ""
  ContentType : String := ""
  Content : Option ContentStream := none
  Size : Int := 0
  RevPos : Int := 0
  Stub : Bool := false
  Follows : Bool := false
deriving DecidableEq

/-- Structural JSON values: the shapes the attachment codec produces and
consumes (strings, numbers, booleans and objects). -/
inductive JSON where
  | str (s : String)
  | num (n : Int)
  | bool (b : Bool)
  | obj (fields : List (String × JSON))

/-- The standard base64 alphabet character for a 6-bit value. -/
def b64char (n : Nat) : Char :=
  if n < 26 then Char.ofNat (65 + n)
  else if n < 52 then Char.ofNat (71 + n)
  else if n < 62 then Char.ofNat (n - 4)
  else if n = 62 then '+'
  else '/'

/-- The 6-bit value of a base64 alphabet character, `none` for any other
character. -/
def b64val (c : Char) : Option Nat :=
  if 65 ≤ c.toNat ∧ c.toNat ≤ 90 then some (c.toNat - 65)
  else if 97 ≤ c.toNat ∧ c.toNat ≤ 122 then some (c.toNat - 71)
  else if 48 ≤ c.toNat ∧ c.toNat ≤ 57 then some (c.toNat + 4)
  else if c = '+' then some 62
  else if c = '/' then some 63
  else none

/-- Standard base64 encoding of a byte list, three bytes to four characters,
with `=` padding (`encoding/base64.StdEncoding`). -/
def base64EncodeChunks : List Nat → List Char
  | [] => []
  | [b0] => [b64char (b0 / 4), b64char (b0 % 4 * 16), '=', '=']
  | [b0, b1] => [b64char (b0 / 4), b64char (b0 % 4 * 16 + b1 / 16), b64char (b1 % 16 * 4), '=']
  | b0 :: b1 :: b2 :: rest =>
    b64char (b0 / 4) :: b64char (b0 % 4 * 16 + b1 / 16) ::
      b64char (b1 % 16 * 4 + b2 / 64) :: b64char (b2 % 64) :: base64EncodeChunks rest

/-- Standard base64 decoding, four characters to three bytes, accepting `=`
padding only at the end of the input. -/
def base64DecodeChunks : List Char → Option (List Nat)
  | [] => some []
  | c0 :: c1 :: c2 :: c3 :: rest =>
    match b64val c0, b64val c1 with
    | some v0, some v1 =>
      if c2 = '=' then
        if c3 = '=' ∧ rest = [] then some [v0 * 4 + v1 / 16] else none
      else
        match b64val c2 with
        | some v2 =>
          if c3 = '=' then
            if rest = [] then some [v0 * 4 + v1 / 16, v1 % 16 * 16 + v2 / 4] else none
          else
            match b64val c3, base64DecodeChunks rest with
            | some v3, some ds =>
              some ((v0 * 4 + v1 / 16) :: (v1 % 16 * 16 + v2 / 4) :: (v2 % 4 * 64 + v3) :: ds)
            | _, _ => none
        | none => none
    | _, _ => none
  | _ => none

/-- Base64 encoding of bytes as a string. -/
def base64Encode (b : List Nat) : String := String.mk (base64EncodeChunks b)

/-- Base64 decoding of a string into bytes. -/
def base64Decode (s : String) : Option (List Nat) := base64DecodeChunks s.toList

theorem b64val_b64char_fin : ∀ n : Fin 64, b64val (b64char n.val) = some n.val := by decide

theorem b64val_b64char {n : Nat} (h : n < 64) : b64val (b64char n) = some n :=
  b64val_b64char_fin ⟨n, h⟩

theorem b64char_ne_eq_fin : ∀ n : Fin 64, b64char n.val ≠ '=' := by decide

theorem b64char_ne_eq {n : Nat} (h : n < 64) : b64char n ≠ '=' :=
  b64char_ne_eq_fin ⟨n, h⟩

/-- Decoding inverts encoding on any list of genuine bytes. -/
theorem base64_roundtrip :
    ∀ b : List Nat, (∀ x ∈ b, x < 256) →
      base64DecodeChunks (base64EncodeChunks b) = some b
  | [], _ => rfl
  | [b0], h => by
    have hb0 : b0 < 256 := h b0 (by simp)
    have h0 : b0 / 4 < 64 := by omega
    have h1 : b0 % 4 * 16 < 64 := by omega
    simp only [base64EncodeChunks, base64DecodeChunks,
      b64val_b64char h0, b64val_b64char h1, and_self, if_true,
      Option.some.injEq, List.cons.injEq, and_true]
    omega
  | [b0, b1], h => by
    have hb0 : b0 < 256 := h b0 (by simp)
    have hb1 : b1 < 256 := h b1 (by simp)
    have h0 : b0 / 4 < 64 := by omega
    have h1 : b0 % 4 * 16 + b1 / 16 < 64 := by omega
    have h2 : b1 % 16 * 4 < 64 := by omega
    simp only [base64EncodeChunks, base64DecodeChunks,
      b64val_b64char h0, b64val_b64char h1, b64val_b64char h2,
      if_neg (b64char_ne_eq h2), if_true,
      Option.some.injEq, List.cons.injEq, and_true]
    omega
  | b0 :: b1 :: b2 :: rest, h => by
    have hb0 : b0 < 256 := h b0 (by simp)
    have hb1 : b1 < 256 := h b1 (by simp)
    have hb2 : b2 < 256 := h b2 (by simp)
    have h0 : b0 / 4 < 64 := by omega
    have h1 : b0 % 4 * 16 + b1 / 16 < 64 := by omega
    have h2 : b1 % 16 * 4 + b2 / 64 < 64 := by omega
    have h3 : b2 % 64 < 64 := by omega
    have ih := base64_roundtrip rest (fun x hx => h x (by simp [hx]))
    simp only [base64EncodeChunks, base64DecodeChunks,
      b64val_b64char h0, b64val_b64char h1, b64val_b64char h2, b64val_b64char h3,
      if_neg (b64char_ne_eq h2), if_neg (b64char_ne_eq h3), ih,
      Option.some.injEq, List.cons.injEq, and_true]
    omega

/-- The error message produced when reading `Content` fails during an inline
marshal: the serialization layer names the attachment type and appends the
underlying read error (the message observed by the marshal tests). -/
def attachmentMarshalErrorFor (cause : String) : String :=
  "json: error calling MarshalJSON for type *kivik.Attachment: " ++ cause

/-- Modelled from the spec: `Attachment.MarshalJSON` is not among the given
source files (only its tests are), so the three-way representation choice of
spec section 4.1 is embedded here.  Stub attachments emit
`{content_type, length, stub: true}`; Follows attachments emit
`{content_type, follows: true}` plus `revpos` when non-zero; otherwise the
content stream is read to exhaustion, base64-encoded and emitted as `data`,
with `revpos` when non-zero, and a read failure aborts the marshal with a
serialization error wrapping the read error. -/
def Attachment.marshalJSON (a : Attachment) : Except String JSON :=
  if a.Stub then
    .ok (.obj [("content_type", .str a.ContentType), ("length", .num a.Size),
      ("stub", .bool true)])
  else if a.Follows then
    .ok (.obj (("content_type", .str a.ContentType) :: ("follows", .bool true) ::
      if a.RevPos ≠ 0 then [("revpos", .num a.RevPos)] else []))
  else
    match a.Content with
    | none => .error (attachmentMarshalErrorFor "nil content")
    | some s =>
      match s.readAll with
      | .error e => .error (attachmentMarshalErrorFor e)
      | .ok b =>
        .ok (.obj (("content_type", .str a.ContentType) ::
          ("data", .str (base64Encode b)) ::
          if a.RevPos ≠ 0 then [("revpos", .num a.RevPos)] else []))

/-- Modelled from the spec: `Attachment.UnmarshalJSON` is not among the given
source files (only its tests are), so the decoder of spec section 4.2 is
embedded here.  `content_type` is required; `stub: true` yields a stub
attachment with an empty content stream, `follows: true` yields a follows
attachment with no inline content, and otherwise the `data` field is base64
decoded into the content stream.  Malformed base64, a missing required field
or conflicting flags yield a deserialization error naming the offending
field.  `Filename` is never set by this operation. -/
def Attachment.unmarshalJSON (j : JSON) : Except String Attachment :=
  match j with
  | .obj fields =>
    match List.lookup "content_type" fields with
    | some (.str ct) =>
      let size : Int := match List.lookup "length" fields with
        | some (.num n) => n
        | _ => 0
      let revPos : Int := match List.lookup "revpos" fields with
        | some (.num n) => n
        | _ => 0
      let isStub : Bool := match List.lookup "stub" fields with
        | some (.bool true) => true
        | _ => false
      let isFollows : Bool := match List.lookup "follows" fields with
        | some (.bool true) => true
        | _ => false
      if isStub then
        if isFollows then
          .error "DeserializationError: conflicting flags stub and follows"
        else
          .ok
            { Filename := "", ContentType := ct, Content := some (.bytes []),
              Size := size, RevPos := revPos, Stub := true, Follows := false }
      else if isFollows then
        .ok
          { Filename := "", ContentType := ct, Content := none,
            Size := size, RevPos := revPos, Stub := false, Follows := true }
      else
        match List.lookup "data" fields with
        | some (.str d) =>
          match base64Decode d with
          | some b =>
            .ok
              { Filename := "", ContentType := ct, Content := some (.bytes b),
                Size := size, RevPos := revPos, Stub := false, Follows := false }
          | none => .error "DeserializationError: malformed base64 in field data"
        | _ => .error "DeserializationError: missing field data"
    | _ => .error "DeserializationError: missing required field content_type"
  | _ => .error "DeserializationError: attachment is not a JSON object"

/-- Modelled from the spec: the `Attachments` collection decoder of spec
section 4.3 is not among the given source files.  Each value of the input
object is unmarshaled as an attachment and its `Filename` is set to the
enclosing key; the first failing member aborts the decode. -/
def attachmentsUnmarshalFields :
    List (String × JSON) → Except String (List (String × Attachment))
  | [] => .ok []
  | (k, v) :: rest =>
    match Attachment.unmarshalJSON v with
    | .error e => .error e
    | .ok att =>
      match attachmentsUnmarshalFields rest with
      | .error e => .error e
      | .ok tail => .ok ((k, { att with Filename := k }) :: tail)

/-- Modelled from the spec: unmarshaling an `Attachments` collection.  The Go
collection is a map that may be `nil`; the result is wrapped in `Option`,
with `some` modelling a non-nil (possibly empty) map, so a successful decode
of `{}` is the non-nil empty collection `some []`. -/
def Attachments.unmarshalJSON (j : JSON) :
    Except String (Option (List (String × Attachment)))  :=
  match j with
  | .obj fields => (attachmentsUnmarshalFields fields).map some
  | _ => .error "DeserializationError: attachments is not a JSON object"

/-- The raw record a backend produces per attachment (`driver.Attachment`):
filename, content type, flags, size, revision position and a content
stream, which may be absent. -/
structure DriverAttachment where
  Filename : String := ""
  ContentType : String := ""
  Stub : Bool := false
  Follows : Bool := false
  Size : Int := 0
  RevPos : Int := 0
  Content : Option ContentStream := none
deriving DecidableEq

/-- A classified error as surfaced by a backend: an HTTP status
classification plus the underlying message (`kivik.Error`). -/
structure KivikError where
  HTTPStatus : Nat
  Err : String
deriving DecidableEq

/-- One outcome of the backend source's `next` call: a populated record, the
exhaustion signal, or a classified failure. -/
inductive SourceNext where
  | record (r : DriverAttachment)
  | exhausted
  | failure (e : KivikError)
deriving DecidableEq

/-- The `AttachmentsIterator`, adapting a backend attachment source.  The
source is modelled by the sequence of outcomes its `next` calls produce and
by the result its teardown returns; `closed` and `closeCalls` record whether
and how often the backend teardown has run. -/
structure AttachmentsIterator where
  source : List SourceNext := []
  closeResult : Option KivikError := none
  closed : Bool := false
  closeCalls : Nat := 0
deriving DecidableEq

/-- The field mapping from a raw driver record to a public `Attachment`. -/
def attachmentFromDriver (r : DriverAttachment) : Attachment :=
  { Filename := r.Filename, ContentType := r.ContentType, Content := r.Content,
    Size := r.Size, RevPos := r.RevPos, Stub := r.Stub, Follows := r.Follows }

/-- What one `Next` call on the iterator returns: a decoded attachment, the
clean termination indicator, or a retrieval failure. -/
inductive NextResult where
  | attachment (a : Attachment)
  | done
  | failure (e : KivikError)
deriving DecidableEq

/-- Modelled from the spec: `AttachmentsIterator.Next` is not among the given
source files (only its tests are), so spec section 4.5 is embedded here.  The
source's next outcome is consulted: exhaustion yields the clean termination
indicator, a failure is returned with its classification unchanged (the
terminal outcome is left in place, so repeated calls behave identically), and
a record is mapped to a public `Attachment`. -/
def AttachmentsIterator.next (it : AttachmentsIterator) :
    NextResult × AttachmentsIterator :=
  match it.source with
  | [] => (.done, it)
  | .exhausted :: _ => (.done, it)
  | .failure e :: _ => (.failure e, it)
  | .record r :: rest => (.attachment (attachmentFromDriver r), { it with source := rest })

/-- Modelled from the spec: `AttachmentsIterator.Close` is not among the
given source files, so the close-once semantics of spec section 4.5 is
embedded here.  The first close runs the backend teardown and reports its
result; once closed, a further close is a no-op reporting no error. -/
def AttachmentsIterator.close (it : AttachmentsIterator) :
    Option KivikError × AttachmentsIterator :=
  if it.closed then (none, it)
  else (it.closeResult, { it with closed := true, closeCalls := it.closeCalls + 1 })

theorem unmarshalJSON_inline (ct d : String) (b : List Nat)
    (hd : base64Decode d = some b) :
    Attachment.unmarshalJSON (.obj [("content_type", .str ct), ("data", .str d)]) =
      .ok { ContentType := ct, Content := some (.bytes b) } := by
  simp [Attachment.unmarshalJSON, List.lookup, hd]

theorem unmarshalJSON_inline_revpos (ct d : String) (n : Int) (b : List Nat)
    (hd : base64Decode d = some b) :
    Attachment.unmarshalJSON
        (.obj [("content_type", .str ct), ("data", .str d), ("revpos", .num n)]) =
      .ok { ContentType := ct, Content := some (.bytes b), RevPos := n } := by
  simp [Attachment.unmarshalJSON, List.lookup, hd]

/-- C2: for every attachment with Stub set, marshaling emits exactly the JSON
object with `content_type`, `length` equal to `Size` and `stub: true`, and the
content stream is never read: the result is independent of `Content`, even a
stream that would error on read. -/
theorem C2_stub_marshal_exact (a : Attachment) (h : a.Stub = true) :
    a.marshalJSON = .ok (.obj [("content_type", .str a.ContentType),
      ("length", .num a.Size), ("stub", .bool true)]) ∧
    ∀ c, Attachment.marshalJSON { a with Content := c } =
      .ok (.obj [("content_type", .str a.ContentType),
        ("length", .num a.Size), ("stub", .bool true)]) := by
  refine ⟨?_, fun c => ?_⟩ <;> simp [Attachment.marshalJSON, h]

theorem C2_stub_marshal_exact_witness :
    Attachment.marshalJSON
      { Filename := "foo.txt", ContentType := "text/plain",
        Content := some (.failing "errorReader"), Size := 7, Stub := true } =
    .ok (.obj [("content_type", .str "text/plain"), ("length", .num 7),
      ("stub", .bool true)]) :=
  (C2_stub_marshal_exact
    { Filename := "foo.txt", ContentType := "text/plain",
      Content := some (.failing "errorReader"), Size := 7, Stub := true } rfl).1

/-- C3: if the content stream's read fails during an inline marshal, marshaling
returns an error (no JSON output) whose message names the attachment type's
marshal failure and appends the original read error. -/
theorem C3_marshal_read_error (a : Attachment) (e : String)
    (hs : a.Stub = false) (hf : a.Follows = false)
    (hc : a.Content = some (.failing e)) :
    a.marshalJSON = .error (attachmentMarshalErrorFor e) ∧
    attachmentMarshalErrorFor e =
      "json: error calling MarshalJSON for type *kivik.Attachment: " ++ e := by
  refine ⟨?_, rfl⟩
  simp [Attachment.marshalJSON, hs, hf, hc, ContentStream.readAll]

theorem C3_marshal_read_error_witness :
    Attachment.marshalJSON
      { Filename := "foo.txt", ContentType := "text/plain",
        Content := some (.failing "errorReader") } =
    .error "json: error calling MarshalJSON for type *kivik.Attachment: errorReader" :=
  (C3_marshal_read_error
    { Filename := "foo.txt", ContentType := "text/plain",
      Content := some (.failing "errorReader") } "errorReader" rfl rfl rfl).1

/-- C5: for every attachment with Stub unset and Follows set, marshaling emits
an object containing `content_type` and `follows: true`, omitting `data` and
`length`, with `revpos` present exactly when `RevPos` is non-zero; the content
stream is not consumed, so the result is independent of `Content`. -/
theorem C5_follows_marshal (a : Attachment) (hs : a.Stub = false)
    (hf : a.Follows = true) :
    ∃ fields,
      a.marshalJSON = .ok (.obj fields) ∧
      List.lookup "content_type" fields = some (.str a.ContentType) ∧
      List.lookup "follows" fields = some (.bool true) ∧
      List.lookup "data" fields = none ∧
      List.lookup "length" fields = none ∧
      List.lookup "revpos" fields =
        (if a.RevPos ≠ 0 then some (.num a.RevPos) else none) ∧
      ∀ c, Attachment.marshalJSON { a with Content := c } = .ok (.obj fields) := by
  refine ⟨("content_type", .str a.ContentType) :: ("follows", .bool true) ::
    (if a.RevPos ≠ 0 then [("revpos", .num a.RevPos)] else []),
    ?_, ?_, ?_, ?_, ?_, ?_, fun c => ?_⟩ <;>
    by_cases hr : a.RevPos = 0 <;>
    simp [Attachment.marshalJSON, hs, hf, hr, List.lookup]

theorem C5_follows_marshal_witness :
    ∃ fields,
      Attachment.marshalJSON
        { Filename := "foo.txt", ContentType := "text/plain",
          Content := some (.failing "errorReader"), RevPos := 3,
          Follows := true } = .ok (.obj fields) ∧
      List.lookup "content_type" fields = some (.str "text/plain") ∧
      List.lookup "follows" fields = some (.bool true) ∧
      List.lookup "data" fields = none ∧
      List.lookup "length" fields = none ∧
      List.lookup "revpos" fields = (if (3 : Int) ≠ 0 then some (.num 3) else none) ∧
      ∀ c, Attachment.marshalJSON
        { Filename := "foo.txt", ContentType := "text/plain", Content := c,
          RevPos := 3, Follows := true } = .ok (.obj fields) :=
  C5_follows_marshal
    { Filename := "foo.txt", ContentType := "text/plain",
      Content := some (.failing "errorReader"), RevPos := 3, Follows := true }
    rfl rfl

/-- C8: unmarshaling the stub object with content type `text/plain` yields an
attachment with Stub set, that content type, an unset filename, and a content
stream that closes without error and reads back zero bytes. -/
theorem C8_unmarshal_stub :
    Attachment.unmarshalJSON
        (.obj [("content_type", .str "text/plain"), ("stub", .bool true)]) =
      .ok
        { Filename := "", ContentType := "text/plain",
          Content := some (.bytes []), Size := 0, RevPos := 0,
          Stub := true, Follows := false } ∧
    readContent (some (.bytes [])) = .ok [] ∧
    ContentStream.close (.bytes []) = none :=
  ⟨rfl, rfl, rfl⟩

/-- C1: for every attachment with Stub and Follows unset holding content bytes
b, marshaling to JSON, unmarshaling that JSON into a fresh attachment, and
fully reading the resulting content stream yields exactly b. -/
theorem C1_marshal_unmarshal_read_roundtrip (a : Attachment) (b : List Nat)
    (hs : a.Stub = false) (hf : a.Follows = false)
    (hc : a.Content = some (.bytes b)) (hb : ∀ x ∈ b, x < 256) :
    ∃ j a', a.marshalJSON = .ok j ∧ Attachment.unmarshalJSON j = .ok a' ∧
      readContent a'.Content = .ok b := by
  have hd : base64Decode (base64Encode b) = some b := by
    simpa [base64Decode, base64Encode, String.toList] using base64_roundtrip b hb
  by_cases hr : a.RevPos = 0
  · refine ⟨.obj [("content_type", .str a.ContentType),
      ("data", .str (base64Encode b))],
      { ContentType := a.ContentType, Content := some (.bytes b) }, ?_, ?_, rfl⟩
    · simp [Attachment.marshalJSON, hs, hf, hc, hr, ContentStream.readAll]
    · exact unmarshalJSON_inline a.ContentType (base64Encode b) b hd
  · refine ⟨.obj [("content_type", .str a.ContentType),
      ("data", .str (base64Encode b)), ("revpos", .num a.RevPos)],
      { ContentType := a.ContentType, Content := some (.bytes b),
        RevPos := a.RevPos }, ?_, ?_, rfl⟩
    · simp [Attachment.marshalJSON, hs, hf, hc, hr, ContentStream.readAll]
    · exact unmarshalJSON_inline_revpos a.ContentType (base64Encode b) a.RevPos b hd

theorem C1_marshal_unmarshal_read_roundtrip_witness :
    ∃ j a',
      Attachment.marshalJSON
        { Filename := "foo.txt", ContentType := "text/plain",
          Content := some (.bytes [116, 101, 115, 116, 32, 97, 116, 116,
            97, 99, 104, 109, 101, 110, 116, 10]) } = .ok j ∧
      Attachment.unmarshalJSON j = .ok a' ∧
      readContent a'.Content =
        .ok [116, 101, 115, 116, 32, 97, 116, 116, 97, 99, 104, 109, 101, 110, 116, 10] :=
  C1_marshal_unmarshal_read_roundtrip
    { Filename := "foo.txt", ContentType := "text/plain",
      Content := some (.bytes [116, 101, 115, 116, 32, 97, 116, 116,
        97, 99, 104, 109, 101, 110, 116, 10]) }
    [116, 101, 115, 116, 32, 97, 116, 116, 97, 99, 104, 109, 101, 110, 116, 10]
    rfl rfl rfl (by decide)

/-- C6 counterexample: a Stub attachment with non-zero RevPos = 3 marshals to
an object whose field set has no revpos entry, so the claim that every
representation includes revpos when RevPos is non-zero fails on the stub
representation. -/
theorem C6_counterexample :
    Attachment.marshalJSON
      { Filename := "foo.txt", ContentType := "text/plain", Content := none,
        Size := 7, RevPos := 3, Stub := true, Follows := false } =
      .ok (.obj [("content_type", .str "text/plain"), ("length", .num 7),
        ("stub", .bool true)]) ∧
    List.lookup "revpos" [("content_type", JSON.str "text/plain"),
      ("length", JSON.num 7), ("stub", JSON.bool true)] = none ∧
    (3 : Int) ≠ 0 :=
  ⟨rfl, rfl, by decide⟩

/-- C6 (amended): in every successfully marshaled representation, the revpos
field carries RevPos exactly when the representation is not the stub one and
RevPos is non-zero: the follows and inline representations omit revpos when
RevPos is zero and include it when non-zero, and the stub representation
always omits it. -/
theorem C6_revpos_amended (a : Attachment) (fields : List (String × JSON))
    (h : a.marshalJSON = .ok (.obj fields)) :
    List.lookup "revpos" fields =
      if a.Stub = false ∧ a.RevPos ≠ 0 then some (.num a.RevPos) else none := by
  by_cases hs : a.Stub = true
  · simp only [Attachment.marshalJSON, hs, if_true, Except.ok.injEq,
      JSON.obj.injEq] at h
    subst h
    simp [hs, List.lookup]
  · have hs2 : a.Stub = false := by simpa using hs
    by_cases hf : a.Follows = true
    · simp only [Attachment.marshalJSON, hs2, hf, Bool.false_eq_true, if_false,
        if_true, Except.ok.injEq, JSON.obj.injEq] at h
      subst h
      by_cases hr : a.RevPos = 0 <;> simp [hs2, hr, List.lookup]
    · have hf2 : a.Follows = false := by simpa using hf
      cases hcon : a.Content with
      | none =>
        simp [Attachment.marshalJSON, hs2, hf2, hcon] at h
      | some s =>
        cases s with
        | failing e =>
          simp [Attachment.marshalJSON, hs2, hf2, hcon, ContentStream.readAll] at h
        | bytes b =>
          simp only [Attachment.marshalJSON, hs2, hf2, hcon, ContentStream.readAll,
            Bool.false_eq_true, if_false, Except.ok.injEq, JSON.obj.injEq] at h
          subst h
          by_cases hr : a.RevPos = 0 <;> simp [hs2, hr, List.lookup]

theorem C6_revpos_amended_witness :
    List.lookup "revpos" [("content_type", JSON.str "text/plain"),
      ("follows", JSON.bool true), ("revpos", JSON.num 3)] = some (JSON.num 3) := by
  have h := C6_revpos_amended
    { Filename := "foo.txt", ContentType := "text/plain", Content := none,
      Size := 0, RevPos := 3, Stub := false, Follows := true }
    [("content_type", JSON.str "text/plain"), ("follows", JSON.bool true),
      ("revpos", JSON.num 3)] rfl
  simpa using h

theorem attachmentsUnmarshalFields_filename :
    ∀ (fields : List (String × JSON)) (l : List (String × Attachment)),
      attachmentsUnmarshalFields fields = .ok l → ∀ p ∈ l, p.2.Filename = p.1
  | [], l, h, p, hp => by
    simp only [attachmentsUnmarshalFields, Except.ok.injEq] at h
    subst h
    simp at hp
  | (k, v) :: rest, l, h, p, hp => by
    simp only [attachmentsUnmarshalFields] at h
    cases hv : Attachment.unmarshalJSON v with
    | error e => simp [hv] at h
    | ok att =>
      cases hrest : attachmentsUnmarshalFields rest with
      | error e => simp [hv, hrest] at h
      | ok tail =>
        simp only [hv, hrest, Except.ok.injEq] at h
        subst h
        rcases List.mem_cons.mp hp with rfl | hp2
        · rfl
        · exact attachmentsUnmarshalFields_filename rest tail hrest p hp2

/-- C7: a successfully unmarshaled attachment collection assigns every
resulting attachment's Filename from its enclosing object key, and
unmarshaling the empty object yields the empty, non-nil collection. -/
theorem C7_attachments_unmarshal (fields : List (String × JSON))
    (l : List (String × Attachment))
    (h : Attachments.unmarshalJSON (.obj fields) = .ok (some l)) :
    (∀ p ∈ l, p.2.Filename = p.1) ∧
      Attachments.unmarshalJSON (.obj []) = .ok (some []) := by
  refine ⟨?_, rfl⟩
  have h2 : attachmentsUnmarshalFields fields = .ok l := by
    simp only [Attachments.unmarshalJSON] at h
    cases hf : attachmentsUnmarshalFields fields with
    | error e => simp [hf, Except.map] at h
    | ok l2 =>
      simp only [hf, Except.map, Except.ok.injEq, Option.some.injEq] at h
      subst h
      rfl
  exact attachmentsUnmarshalFields_filename fields l h2

theorem C7_attachments_unmarshal_witness :
    (∀ p ∈ [("foo.txt",
        ({ Filename := "foo.txt", ContentType := "text/plain",
           Content := some (.bytes [116, 101, 115, 116, 32, 97, 116, 116,
             97, 99, 104, 109, 101, 110, 116, 10]),
           Size := 0, RevPos := 0, Stub := false, Follows := false } : Attachment))],
      p.2.Filename = p.1) ∧
    Attachments.unmarshalJSON (.obj []) = .ok (some []) :=
  C7_attachments_unmarshal
    [("foo.txt", .obj [("content_type", .str "text/plain"),
      ("data", .str "dGVzdCBhdHRhY2htZW50Cg==")])]
    [("foo.txt",
      { Filename := "foo.txt", ContentType := "text/plain",
        Content := some (.bytes [116, 101, 115, 116, 32, 97, 116, 116,
          97, 99, 104, 109, 101, 110, 116, 10]),
        Size := 0, RevPos := 0, Stub := false, Follows := false })]
    rfl

/-- C4: when the backend source's next outcome is a classified failure, the
iterator's Next returns that failure with its classification unchanged and
yields no attachment value. -/
theorem C4_iterator_next_failure (it : AttachmentsIterator) (e : KivikError)
    (rest : List SourceNext) (h : it.source = .failure e :: rest) :
    it.next.1 = .failure e ∧ ∀ a, it.next.1 ≠ .attachment a := by
  have hn : it.next = (.failure e, it) := by
    simp [AttachmentsIterator.next, h]
  rw [hn]
  exact ⟨rfl, fun a hcon => by cases hcon⟩

theorem C4_iterator_next_failure_witness :
    (AttachmentsIterator.next
      { source := [.failure { HTTPStatus := 502, Err := "error" }],
        closeResult := none, closed := false, closeCalls := 0 }).1 =
      .failure { HTTPStatus := 502, Err := "error" } :=
  (C4_iterator_next_failure
    { source := [.failure { HTTPStatus := 502, Err := "error" }],
      closeResult := none, closed := false, closeCalls := 0 }
    { HTTPStatus := 502, Err := "error" } [] rfl).1

/-- C9: after a first successful close, a second close returns no error and
leaves the iterator unchanged, so the backend teardown is not re-invoked. -/
theorem C9_close_idempotent (it : AttachmentsIterator) (_h : it.close.1 = none) :
    it.close.2.close.1 = none ∧ it.close.2.close.2 = it.close.2 ∧
      it.close.2.close.2.closeCalls = it.close.2.closeCalls := by
  by_cases hc : it.closed <;> simp [AttachmentsIterator.close, hc]

theorem C9_close_idempotent_witness :
    (AttachmentsIterator.close
        (AttachmentsIterator.close
          { source := [], closeResult := none, closed := false,
            closeCalls := 0 }).2).1 = none :=
  (C9_close_idempotent
    { source := [], closeResult := none, closed := false, closeCalls := 0 }
    rfl).1

/-- C10: when the backend source's next outcome is a record carrying only a
filename and no content stream, Next returns without error an attachment whose
Filename equals the record's filename and whose Content is nil. -/
theorem C10_iterator_next_record (it : AttachmentsIterator) (r : DriverAttachment)
    (rest : List SourceNext) (h : it.source = .record r :: rest)
    (hc : r.Content = none) :
    it.next.1 = .attachment (attachmentFromDriver r) ∧
      (attachmentFromDriver r).Filename = r.Filename ∧
      (attachmentFromDriver r).Content = none := by
  refine ⟨?_, rfl, ?_⟩
  · simp [AttachmentsIterator.next, h]
  · simp [attachmentFromDriver, hc]

theorem C10_iterator_next_record_witness :
    (AttachmentsIterator.next
        { source :=
            [.record
              { Filename := "foo.txt", ContentType := "", Stub := false,
                Follows := false, Size := 0, RevPos := 0, Content := none }],
          closeResult := none, closed := false, closeCalls := 0 }).1 =
      .attachment (attachmentFromDriver
        { Filename := "foo.txt", ContentType := "", Stub := false,
          Follows := false, Size := 0, RevPos := 0, Content := none }) :=
  (C10_iterator_next_record
    { source :=
        [.record
          { Filename := "foo.txt", ContentType := "", Stub := false,
            Follows := false, Size := 0, RevPos := 0, Content := none }],
      closeResult := none, closed := false, closeCalls := 0 }
    { Filename := "foo.txt", ContentType := "", Stub := false,
      Follows := false, Size := 0, RevPos := 0, Content := none }
    [] rfl rfl).1
